import Mathlib

/-!
Bitbucket migration script `20251218_add_pr_reviewers_table`.

A shallow embedding of
`backend/plugins/bitbucket/models/migrationscripts/20251218_add_pr_reviewers_table.go`
and the properties its specification states about it.

* The record type `bitbucketPrReviewer20251218` is embedded twice: as a Lean
  structure (its values) and as the list of its field declarations, with the
  `gorm` tag of each field kept as the text written in the source.
* `addPrReviewersTable.Up` is embedded as a script: the single call of
  `migrationhelper.AutoMigrateTables` followed by the return of its result.
  A script is run against an arbitrary behaviour of the helper.
* The helper, the embedded `common.NoPKModel` and the database are not part
  of the source file; where a property depends on them they are modelled
  from the specification and marked so.
-/

namespace migrationscripts

/-! ## Struct declarations -/

/-- Go types occurring in the record declaration. -/
inductive GoType where
  | uint64
  | string
  | int
  | bool
  | time
  | ptr (t : GoType)
  deriving DecidableEq, Repr

/-- One field of a Go struct declaration: its name, its type and the text of
its `gorm` struct tag (the empty string when the field has no tag). -/
structure StructField where
  name : String
  type : GoType
  gorm : String
  deriving DecidableEq, Repr

/-- Split a character list at every occurrence of a separator. -/
def splitAt (sep : Char) : List Char → List (List Char)
  | [] => [[]]
  | c :: cs =>
    if c = sep then [] :: splitAt sep cs
    else
      match splitAt sep cs with
      | [] => [[c]]
      | w :: ws => (c :: w) :: ws

/-- Key and value of one tag setting: the text before the first colon and the
text after it. -/
def settingOf (s : List Char) : String × String :=
  (String.mk (s.takeWhile (fun c => c != ':')),
   String.mk ((s.dropWhile (fun c => c != ':')).drop 1))

/-- The settings of a `gorm` tag: the tag is a list of settings separated by
semicolons, each one a key or a `key:value` pair. -/
def tagSettings (tag : String) : List (String × String) :=
  ((splitAt ';' tag.toList).filter (fun s => !s.isEmpty)).map settingOf

/-- The field carries the `primaryKey` setting. -/
def StructField.isPrimaryKey (f : StructField) : Bool :=
  (tagSettings f.gorm).any (fun kv => kv.1 == "primaryKey")

/-- The value of the `type` setting of the field, if any. -/
def StructField.typeSetting (f : StructField) : Option String :=
  ((tagSettings f.gorm).find? (fun kv => kv.1 == "type")).map (fun kv => kv.2)

/-- Read a decimal number. -/
def digitsToNat : List Char → Nat → Option Nat
  | [], acc => some acc
  | c :: cs, acc =>
    if c.isDigit then digitsToNat cs (10 * acc + (c.toNat - 48)) else none

/-- Remove the given leading characters, if they are there. -/
def dropLeading : List Char → List Char → Option (List Char)
  | [], s => some s
  | _ :: _, [] => none
  | p :: ps, c :: cs => if p = c then dropLeading ps cs else none

/-- The bound `n` of a column type written `varchar(n)`. -/
def parseVarchar (v : String) : Option Nat :=
  match dropLeading "varchar(".toList v.toList with
  | none => none
  | some rest =>
    match rest.reverse with
    | ')' :: d :: ds => digitsToNat (d :: ds).reverse 0
    | _ => none

/-- Column types of the persisted table. -/
inductive ColumnType where
  | unsigned (bits : Nat)
  | integer
  | varchar (bound : Nat)
  | text
  | boolean
  | timestamp
  deriving DecidableEq, Repr

/-- The column type a Go type maps to when the tag gives no type. -/
def GoType.columnType : GoType → ColumnType
  | .uint64 => .unsigned 64
  | .string => .text
  | .int => .integer
  | .bool => .boolean
  | .time => .timestamp
  | .ptr t => t.columnType

/-- A Go type is a pointer, so that a field of this type can be nil in a
record. This says nothing about the column of the field. -/
def GoType.isPointer : GoType → Bool
  | .ptr _ => true
  | _ => false

/-- The key of a setting in capital letters, the form in which setting keys
are compared. -/
def upperKey (key : String) : String :=
  String.mk (key.toList.map Char.toUpper)

/-- The field carries the `not null` setting, which declares its column
NOT NULL. -/
def StructField.isNotNull (f : StructField) : Bool :=
  (tagSettings f.gorm).any
    (fun kv => upperKey kv.1 == "NOT NULL" || upperKey kv.1 == "NOTNULL")

/-- The snake-case form of a name: every capital letter becomes small, with
an underscore before it when it follows a character that is not a capital
letter. -/
def snakeCase : List Char → Bool → List Char
  | [], _ => []
  | c :: cs, afterSmall =>
    if c.isUpper then
      (if afterSmall then ['_', c.toLower] else [c.toLower]) ++ snakeCase cs false
    else c :: snakeCase cs true

/-- The column name of a field: its name in snake case. -/
def StructField.columnName (f : StructField) : String :=
  String.mk (snakeCase f.name.toList false)

/-- A column of a table: name, type and whether it is declared NOT NULL. -/
structure Column where
  name : String
  type : ColumnType
  notNull : Bool
  deriving DecidableEq, Repr

/-- The column declared by a struct field. Its name is the field name in
snake case. A `type:varchar(n)` setting gives the column type; otherwise the
Go type does. It is declared NOT NULL exactly when the tag has the `not null`
setting; whether the Go type is a pointer plays no part. -/
def StructField.column (f : StructField) : Column :=
  { name := f.columnName
    type :=
      match f.typeSetting.bind parseVarchar with
      | some n => .varchar n
      | none => f.type.columnType
    notNull := f.isNotNull }

/-- An instant, standing for a value of `time.Time`. -/
structure Time where
  unixNano : Int
  deriving DecidableEq, Repr

/-- Modelled from the spec: the declaration of `common.NoPKModel`, which is
not part of the source file. The specification describes it as the shared
audit fields, creation and update timestamps, with no primary key of its
own. -/
structure NoPKModel where
  CreatedAt : Time
  UpdatedAt : Time
  deriving DecidableEq, Repr

/-- Modelled from the spec: the field declarations of `common.NoPKModel`, the
two audit timestamps, neither of them tagged. -/
def NoPKModel.decl : List StructField :=
  [ { name := "CreatedAt", type := .time, gorm := "" },
    { name := "UpdatedAt", type := .time, gorm := "" } ]

/-- The record type `bitbucketPrReviewer20251218`. `ConnectionId` is a
`uint64` and `PullRequestId` an `int`; `ParticipatedOn` is a pointer, nil
being `none`. -/
structure bitbucketPrReviewer20251218 where
  ConnectionId : Nat
  RepoId : String
  PullRequestId : Int
  ReviewerAccount : String
  ReviewerName : String
  Role : String
  Approved : Bool
  State : String
  ParticipatedOn : Option Time
  toNoPKModel : NoPKModel
  deriving DecidableEq, Repr

/-- The name of the record type. -/
def bitbucketPrReviewer20251218.typeName : String := "bitbucketPrReviewer20251218"

/-- The nine fields the record type declares itself, in source order, each
with the `gorm` tag text of the source. -/
def bitbucketPrReviewer20251218.ownDecl : List StructField :=
  [ { name := "ConnectionId", type := .uint64, gorm := "primaryKey" },
    { name := "RepoId", type := .string, gorm := "primaryKey;type:varchar(255)" },
    { name := "PullRequestId", type := .int, gorm := "primaryKey;autoIncrement:false" },
    { name := "ReviewerAccount", type := .string, gorm := "primaryKey;type:varchar(255)" },
    { name := "ReviewerName", type := .string, gorm := "type:varchar(255)" },
    { name := "Role", type := .string, gorm := "type:varchar(100)" },
    { name := "Approved", type := .bool, gorm := "" },
    { name := "State", type := .string, gorm := "type:varchar(100)" },
    { name := "ParticipatedOn", type := .ptr .time, gorm := "" } ]

/-- The field declarations of the record type: its own nine fields followed
by the fields of the embedded struct, given as a parameter. -/
def bitbucketPrReviewer20251218.declWith (embedded : List StructField) : List StructField :=
  bitbucketPrReviewer20251218.ownDecl ++ embedded

/-- The field declarations of the record type with `common.NoPKModel`
embedded. -/
def bitbucketPrReviewer20251218.decl : List StructField :=
  bitbucketPrReviewer20251218.declWith NoPKModel.decl

/-- The method `TableName` of the record type. -/
def bitbucketPrReviewer20251218.TableName (_ : bitbucketPrReviewer20251218) : String :=
  "_tool_bitbucket_pull_request_reviewers"

/-- The zero value `bitbucketPrReviewer20251218{}`. -/
def bitbucketPrReviewer20251218.zero : bitbucketPrReviewer20251218 :=
  { ConnectionId := 0
    RepoId := ""
    PullRequestId := 0
    ReviewerAccount := ""
    ReviewerName := ""
    Role := ""
    Approved := false
    State := ""
    ParticipatedOn := none
    toNoPKModel := { CreatedAt := { unixNano := 0 }, UpdatedAt := { unixNano := 0 } } }

/-- What the migration helper can learn from a value handed to it: the name
of its type, the result of its `TableName` method and its field
declarations. -/
structure Entity where
  typeName : String
  tableName : String
  fields : List StructField
  deriving DecidableEq, Repr

/-- The descriptor of a value of the record type. -/
def bitbucketPrReviewer20251218.entity (v : bitbucketPrReviewer20251218) : Entity :=
  { typeName := bitbucketPrReviewer20251218.typeName
    tableName := v.TableName
    fields := bitbucketPrReviewer20251218.decl }

/-- The columns an entity declares, in declaration order. -/
def Entity.columns (e : Entity) : List Column :=
  e.fields.map StructField.column

/-- The primary key an entity declares: the names of the fields carrying the
`primaryKey` setting, in declaration order. -/
def Entity.primaryKey (e : Entity) : List String :=
  (e.fields.filter StructField.isPrimaryKey).map StructField.name

/-- The column names of the primary key an entity declares, in declaration
order. -/
def Entity.primaryKeyColumns (e : Entity) : List String :=
  (e.fields.filter StructField.isPrimaryKey).map StructField.columnName

/-- The columns outside the primary key that nothing in the declaration
keeps from holding null: the columns of the fields that carry neither the
`primaryKey` nor the `not null` setting. -/
def nullableOutsideKey (fields : List StructField) : List String :=
  (fields.filter (fun f => !f.isPrimaryKey && !f.isNotNull)).map StructField.columnName

/-! ## The migration script -/

/-- A computation of a migration script: it returns an error value (`none`
is the nil error), or calls `migrationhelper.AutoMigrateTables` on a handle
with a list of descriptors and goes on with the error value the call
returned. -/
inductive Script (H E : Type) where
  | ret (err : Option E) : Script H E
  | autoMigrateTables (basicRes : H) (dst : List Entity) (k : Option E → Script H E) : Script H E

/-- A behaviour of the helper: from the handle, the descriptors and the
state of the world it gives an error value and the state it leaves. -/
abbrev Helper (H E σ : Type) := H → List Entity → σ → Option E × σ

/-- What running a script gives: the error value returned, the final state
and the calls of the helper that were made, in order. -/
structure Outcome (H E σ : Type) where
  result : Option E
  state : σ
  calls : List (H × List Entity)

/-- Run a script against a behaviour of the helper. -/
def Script.run {H E σ : Type} (helper : Helper H E σ) : Script H E → σ → Outcome H E σ
  | .ret err, s => { result := err, state := s, calls := [] }
  | .autoMigrateTables basicRes dst k, s =>
    let r := helper basicRes dst s
    let o := (k r.1).run helper r.2
    { result := o.result, state := o.state, calls := (basicRes, dst) :: o.calls }

/-- The script type `addPrReviewersTable`, a struct without fields. -/
structure addPrReviewersTable where
  deriving DecidableEq, Repr

/-- The method `Up`: it returns the result of
`migrationhelper.AutoMigrateTables(basicRes, &bitbucketPrReviewer20251218{})`.
The receiver is a pointer, `none` being nil. -/
def addPrReviewersTable.Up {H E : Type} (_script : Option addPrReviewersTable) (basicRes : H) :
    Script H E :=
  .autoMigrateTables basicRes [bitbucketPrReviewer20251218.zero.entity] .ret

/-- The method `Version`. -/
def addPrReviewersTable.Version (_ : Option addPrReviewersTable) : Nat :=
  20251218000001

/-- The method `Name`. -/
def addPrReviewersTable.Name (_script : Option addPrReviewersTable) : String :=
  "add PR reviewers table to track review status (approved/changes_requested)"

/-- A call of one of the three methods of the script. -/
inductive Call (H : Type) where
  | up (basicRes : H)
  | version
  | name

/-- What a call of a method returns. -/
inductive Reply (E : Type) where
  | up (err : Option E)
  | version (v : Nat)
  | name (s : String)

/-- Perform one method call on the script in a state of the world: `Up` runs
its script against the helper, `Version` and `Name` return their value. -/
def addPrReviewersTable.invoke {H E σ : Type} (helper : Helper H E σ)
    (script : Option addPrReviewersTable) : Call H → σ → Reply E × σ
  | .up basicRes, s =>
    let o := (addPrReviewersTable.Up script basicRes).run helper s
    (.up o.result, o.state)
  | .version, s => (.version (addPrReviewersTable.Version script), s)
  | .name, s => (.name (addPrReviewersTable.Name script), s)

/-- Perform a sequence of method calls, one after the other. -/
def addPrReviewersTable.invokeAll {H E σ : Type} (helper : Helper H E σ)
    (script : Option addPrReviewersTable) : List (Call H) → σ → List (Reply E) × σ
  | [], s => ([], s)
  | c :: cs, s =>
    let r := addPrReviewersTable.invoke helper script c s
    let rs := addPrReviewersTable.invokeAll helper script cs r.2
    (r.1 :: rs.1, rs.2)

/-! ## Version numbers -/

/-- The number written by the trailing decimal digits of a name. -/
def dateSuffix (name : String) : Option Nat :=
  match (name.toList.reverse.takeWhile Char.isDigit).reverse with
  | [] => none
  | d :: ds => digitsToNat (d :: ds) 0

/-- Leap years of the Gregorian calendar. -/
def isLeapYear (y : Nat) : Bool :=
  (y % 4 == 0 && y % 100 != 0) || y % 400 == 0

/-- Number of days of a month. -/
def daysInMonth (y m : Nat) : Nat :=
  if m = 2 then (if isLeapYear y then 29 else 28)
  else if m = 4 ∨ m = 6 ∨ m = 9 ∨ m = 11 then 30
  else 31

/-- A number of the form YYYYMMDD names a day of the calendar. -/
def validDate (n : Nat) : Bool :=
  let y := n / 10000
  let m := n / 100 % 100
  let d := n % 100
  decide (1 ≤ y ∧ y ≤ 9999 ∧ 1 ≤ m ∧ m ≤ 12 ∧ 1 ≤ d ∧ d ≤ daysInMonth y m)

/-! ## The database, modelled from the specification -/

/-- Modelled from the spec: a table of the database, which is not part of
the source file: its columns, the column names of its primary key and its
rows. -/
structure Table (ρ : Type) where
  columns : List Column
  primaryKey : List String
  rows : List ρ

/-- Modelled from the spec: a database state gives the table of each name,
if there is one. -/
abbrev Database (ρ : Type) := String → Option (Table ρ)

/-- Modelled from the spec: the database with the table of one name set. -/
def Database.set {ρ : Type} (db : Database ρ) (name : String) (t : Table ρ) : Database ρ :=
  fun n => if n = name then some t else db n

/-- Modelled from the spec: the handle given to `Up`. Of the live handle
only one thing matters to the step: whether a statement can be executed
through it (privileges, connectivity). -/
structure BasicRes where
  canExecute : Bool
  deriving DecidableEq, Repr

/-- Modelled from the spec: the single error kind, raised when the statement
cannot be executed or when the existing table conflicts with the declared
one. -/
inductive SchemaError where
  | cannotExecute (table : String)
  | conflict (table : String)
  deriving DecidableEq, Repr

/-- Modelled from the spec: the empty table of the declared shape. -/
def Entity.table (ρ : Type) (e : Entity) : Table ρ :=
  { columns := e.columns, primaryKey := e.primaryKeyColumns, rows := [] }

/-- Modelled from the spec: an existing table conflicts with the declared
shape when its primary key is another one or when it has a column of a
declared name with another definition. -/
def Entity.conflicts {ρ : Type} (e : Entity) (t : Table ρ) : Bool :=
  t.primaryKey != e.primaryKeyColumns ||
    e.columns.any (fun c => t.columns.any (fun c' => c'.name == c.name && c' != c))

/-- Modelled from the spec: reconciling an existing table with the declared
shape adds the declared columns it lacks and touches nothing else. -/
def Entity.reconcile {ρ : Type} (e : Entity) (t : Table ρ) : Table ρ :=
  { t with
    columns :=
      t.columns ++ e.columns.filter (fun c => !t.columns.any (fun c' => c'.name == c.name)) }

/-- Modelled from the spec: auto-migration of one table, create-if-absent
and add-missing-columns. It fails, leaving the database as it was, when the
statement cannot be executed or the existing table conflicts. -/
def autoMigrate {ρ : Type} (basicRes : BasicRes) (e : Entity) (db : Database ρ) :
    Option SchemaError × Database ρ :=
  if basicRes.canExecute then
    match db e.tableName with
    | none => (none, db.set e.tableName (e.table ρ))
    | some t =>
      if e.conflicts t then (some (.conflict e.tableName), db)
      else (none, db.set e.tableName (e.reconcile t))
  else (some (.cannotExecute e.tableName), db)

/-- Modelled from the spec: `migrationhelper.AutoMigrateTables`, which is not
part of the source file: the generic routine that reconciles the live table
of each descriptor with its declared shape, in order, and returns the first
error. -/
def AutoMigrateTables {ρ : Type} : Helper BasicRes SchemaError (Database ρ)
  | _, [], db => (none, db)
  | basicRes, e :: es, db =>
    match autoMigrate basicRes e db with
    | (some err, db') => (some err, db')
    | (none, db') => AutoMigrateTables basicRes es db'

/-! ## Rows and the primary-key constraint -/

/-- A value stored in a field of a row. -/
inductive Value where
  | uint (n : Nat)
  | int (i : Int)
  | str (s : String)
  | bool (b : Bool)
  | time (t : Option Time)
  deriving DecidableEq, Repr

/-- The value of the field of a given name in a record. -/
def bitbucketPrReviewer20251218.field (r : bitbucketPrReviewer20251218) (name : String) :
    Option Value :=
  if name = "ConnectionId" then some (.uint r.ConnectionId)
  else if name = "RepoId" then some (.str r.RepoId)
  else if name = "PullRequestId" then some (.int r.PullRequestId)
  else if name = "ReviewerAccount" then some (.str r.ReviewerAccount)
  else if name = "ReviewerName" then some (.str r.ReviewerName)
  else if name = "Role" then some (.str r.Role)
  else if name = "Approved" then some (.bool r.Approved)
  else if name = "State" then some (.str r.State)
  else if name = "ParticipatedOn" then some (.time r.ParticipatedOn)
  else if name = "CreatedAt" then some (.time (some r.toNoPKModel.CreatedAt))
  else if name = "UpdatedAt" then some (.time (some r.toNoPKModel.UpdatedAt))
  else none

/-- The primary-key value of a record: the values of the fields its
declaration tags `primaryKey`, in declaration order. -/
def bitbucketPrReviewer20251218.key (r : bitbucketPrReviewer20251218) : List (Option Value) :=
  r.entity.primaryKey.map r.field

/-- Modelled from the spec: strict insert into a table under its primary-key
constraint, which is the database's and not part of the source file: a row
whose key is the key of a row already present is rejected and the rows stay
as they are, any other row is added. -/
def strictInsert (rows : List bitbucketPrReviewer20251218) (r : bitbucketPrReviewer20251218) :
    Bool × List bitbucketPrReviewer20251218 :=
  if rows.any (fun x => decide (x.key = r.key)) then (false, rows) else (true, rows ++ [r])

/-- Modelled from the spec: the table states reachable from the empty table
by strict inserts. -/
inductive Reachable : List bitbucketPrReviewer20251218 → Prop where
  | empty : Reachable []
  | insert (rows : List bitbucketPrReviewer20251218) (r : bitbucketPrReviewer20251218) :
      Reachable rows → Reachable (strictInsert rows r).2

/-- Two records share all four identity fields. -/
def sameIdentity (a b : bitbucketPrReviewer20251218) : Prop :=
  a.ConnectionId = b.ConnectionId ∧ a.RepoId = b.RepoId ∧
    a.PullRequestId = b.PullRequestId ∧ a.ReviewerAccount = b.ReviewerAccount

instance (a b : bitbucketPrReviewer20251218) : Decidable (sameIdentity a b) := by
  unfold sameIdentity
  exact inferInstance

/-- The record of the concrete scenario of the specification. -/
def scenarioRow : bitbucketPrReviewer20251218 :=
  { ConnectionId := 1
    RepoId := "myorg/myrepo"
    PullRequestId := 42
    ReviewerAccount := "abc123"
    ReviewerName := ""
    Role := "REVIEWER"
    Approved := true
    State := "approved"
    ParticipatedOn := some { unixNano := 1766016000000000000 }
    toNoPKModel := { CreatedAt := { unixNano := 0 }, UpdatedAt := { unixNano := 0 } } }

/-! ## Theorems -/

/-- Running a sequence of calls made of two parts runs the first part and
then the second part from the state the first one leaves. -/
theorem invokeAll_append {H E σ : Type} (helper : Helper H E σ)
    (script : Option addPrReviewersTable) (xs ys : List (Call H)) (s : σ) :
    addPrReviewersTable.invokeAll helper script (xs ++ ys) s =
      ((addPrReviewersTable.invokeAll helper script xs s).1 ++
          (addPrReviewersTable.invokeAll helper script ys
            (addPrReviewersTable.invokeAll helper script xs s).2).1,
        (addPrReviewersTable.invokeAll helper script ys
          (addPrReviewersTable.invokeAll helper script xs s).2).2) := by
  induction xs generalizing s with
  | nil => simp [addPrReviewersTable.invokeAll]
  | cons c cs ih => simp [addPrReviewersTable.invokeAll, ih]

/-- C1: for every handle and every behaviour of the auto-migration helper,
running `Up` gives exactly what one call of the helper on that handle with
the single descriptor of `bitbucketPrReviewer20251218` gives: the same error
value (so an error if and only if the helper gives one, and that very
error), the state the helper leaves, and exactly one call of the helper,
also when that call fails. -/
theorem C1_up_is_one_helper_call {H E σ : Type} (helper : Helper H E σ)
    (script : Option addPrReviewersTable) (basicRes : H) (s : σ) :
    ((addPrReviewersTable.Up script basicRes).run helper s).result =
        (helper basicRes [bitbucketPrReviewer20251218.zero.entity] s).1 ∧
      ((addPrReviewersTable.Up script basicRes).run helper s).state =
        (helper basicRes [bitbucketPrReviewer20251218.zero.entity] s).2 ∧
      (((addPrReviewersTable.Up script basicRes).run helper s).result.isSome ↔
        (helper basicRes [bitbucketPrReviewer20251218.zero.entity] s).1.isSome) ∧
      ((addPrReviewersTable.Up script basicRes).run helper s).calls =
        [(basicRes, [bitbucketPrReviewer20251218.zero.entity])] ∧
      ((addPrReviewersTable.Up script basicRes).run helper s).calls.length = 1 := by
  refine ⟨rfl, rfl, Iff.rfl, rfl, rfl⟩

/-- C3: the primary key declared by `bitbucketPrReviewer20251218` is the four
columns ConnectionId, RepoId, PullRequestId, ReviewerAccount, in that order:
these are the fields carrying the `primaryKey` setting, the fields not
carrying it are the seven others, and whatever struct is embedded adds to
the key only the fields it tags itself, which for `common.NoPKModel` are
none. -/
theorem C3_primary_key_is_the_four_identity_columns :
    (∀ v : bitbucketPrReviewer20251218,
        v.entity.primaryKey = ["ConnectionId", "RepoId", "PullRequestId", "ReviewerAccount"]) ∧
      (bitbucketPrReviewer20251218.ownDecl.filter StructField.isPrimaryKey).map StructField.name =
        ["ConnectionId", "RepoId", "PullRequestId", "ReviewerAccount"] ∧
      (bitbucketPrReviewer20251218.decl.filter (fun f => !f.isPrimaryKey)).map StructField.name =
        ["ReviewerName", "Role", "Approved", "State", "ParticipatedOn", "CreatedAt",
          "UpdatedAt"] ∧
      NoPKModel.decl.filter StructField.isPrimaryKey = [] ∧
      (∀ embedded : List StructField,
        ((bitbucketPrReviewer20251218.declWith embedded).filter StructField.isPrimaryKey).map
            StructField.name =
          ["ConnectionId", "RepoId", "PullRequestId", "ReviewerAccount"] ++
            (embedded.filter StructField.isPrimaryKey).map StructField.name) := by
  refine ⟨fun _ => rfl, by decide, by decide, by decide, fun embedded => ?_⟩
  have h : (bitbucketPrReviewer20251218.ownDecl.filter StructField.isPrimaryKey).map
      StructField.name = ["ConnectionId", "RepoId", "PullRequestId", "ReviewerAccount"] := by
    decide
  simp only [bitbucketPrReviewer20251218.declWith, List.filter_append, List.map_append, h]

/-- C4, the claim as stated fails: participated-on is not the only one of
the nine columns that can hold null. The column reviewer_name is outside the
primary key and is not declared NOT NULL, its field having no `not null`
setting, and it is not participated_on. -/
theorem C4_participated_on_is_not_the_only_nullable_column :
    ¬ (∀ f ∈ bitbucketPrReviewer20251218.ownDecl,
        f.isPrimaryKey = false → f.column.notNull = false →
          f.column.name = "participated_on") := by
  intro h
  have h5 := h { name := "ReviewerName", type := .string, gorm := "type:varchar(255)" }
    (by decide) (by decide) (by decide)
  revert h5
  decide

/-- C4: the columns of the table declared by `bitbucketPrReviewer20251218`
are exactly the eleven listed: connection id (unsigned 64-bit), repository
id (varchar 255), pull-request id (integer), reviewer account (varchar 255),
reviewer name (varchar 255), role (varchar 100), approved (boolean), state
(varchar 100), participated-on (timestamp), then created-at and updated-at.
None of the nine own columns is declared NOT NULL, so outside the primary
key reviewer name, role, approved, state and participated-on can hold null
alike; participated-on is the only one of the nine whose field is a pointer.
The nine own columns come first whatever struct is embedded. -/
theorem C4_columns_of_the_declared_table :
    (∀ v : bitbucketPrReviewer20251218,
        v.entity.columns =
          [ { name := "connection_id", type := .unsigned 64, notNull := false },
            { name := "repo_id", type := .varchar 255, notNull := false },
            { name := "pull_request_id", type := .integer, notNull := false },
            { name := "reviewer_account", type := .varchar 255, notNull := false },
            { name := "reviewer_name", type := .varchar 255, notNull := false },
            { name := "role", type := .varchar 100, notNull := false },
            { name := "approved", type := .boolean, notNull := false },
            { name := "state", type := .varchar 100, notNull := false },
            { name := "participated_on", type := .timestamp, notNull := false },
            { name := "created_at", type := .timestamp, notNull := false },
            { name := "updated_at", type := .timestamp, notNull := false } ]) ∧
      bitbucketPrReviewer20251218.ownDecl.filter StructField.isNotNull = [] ∧
      nullableOutsideKey bitbucketPrReviewer20251218.ownDecl =
        ["reviewer_name", "role", "approved", "state", "participated_on"] ∧
      (bitbucketPrReviewer20251218.ownDecl.filter (fun f => f.type.isPointer)).map
          StructField.columnName = ["participated_on"] ∧
      (bitbucketPrReviewer20251218.ownDecl.map StructField.column).length = 9 ∧
      (∀ embedded : List StructField,
        (bitbucketPrReviewer20251218.declWith embedded).map StructField.column =
          bitbucketPrReviewer20251218.ownDecl.map StructField.column ++
            embedded.map StructField.column) := by
  refine ⟨fun _ => rfl, by decide, by decide, by decide, by decide, fun embedded => ?_⟩
  simp only [bitbucketPrReviewer20251218.declWith, List.map_append]

/-- C5: for every receiver, the nil pointer included, `Version` returns the
literal 20251218000001; in every sequence of method calls that starts and
ends with `Version`, whatever calls of `Up`, `Name` or `Version` lie in
between and whatever the helper does, the first and the last call return
that same value. -/
theorem C5_version_is_the_fixed_literal {H E σ : Type} (helper : Helper H E σ)
    (script other : Option addPrReviewersTable) (between : List (Call H)) (s : σ) :
    addPrReviewersTable.Version script = 20251218000001 ∧
      addPrReviewersTable.Version none = 20251218000001 ∧
      addPrReviewersTable.Version script = addPrReviewersTable.Version other ∧
      (addPrReviewersTable.invokeAll helper script (Call.version :: between ++ [Call.version])
          s).1.head? = some (Reply.version 20251218000001) ∧
      (addPrReviewersTable.invokeAll helper script (Call.version :: between ++ [Call.version])
          s).1.getLast? = some (Reply.version 20251218000001) := by
  refine ⟨rfl, rfl, rfl, rfl, ?_⟩
  have h := invokeAll_append helper script (Call.version :: between) [Call.version] s
  rw [h]
  simp only [addPrReviewersTable.invokeAll, addPrReviewersTable.invoke,
    addPrReviewersTable.Version]
  exact List.getLast?_concat _

/-- C6: for every receiver `Name` returns the same string, which is not
empty; a call of `Name` leaves the state of the world as it is; and putting
a call of `Name` anywhere in a sequence of method calls changes neither the
final state nor what the calls before and after it (of `Up` and `Version`
among them) return. -/
theorem C6_name_is_fixed_and_has_no_effect {H E σ : Type} (helper : Helper H E σ)
    (script other : Option addPrReviewersTable) (before after : List (Call H)) (s : σ) :
    addPrReviewersTable.Name script = addPrReviewersTable.Name other ∧
      addPrReviewersTable.Name script ≠ "" ∧
      0 < (addPrReviewersTable.Name script).length ∧
      addPrReviewersTable.invoke helper script Call.name s =
        (Reply.name (addPrReviewersTable.Name script), s) ∧
      (addPrReviewersTable.invokeAll helper script (before ++ Call.name :: after) s).2 =
        (addPrReviewersTable.invokeAll helper script (before ++ after) s).2 ∧
      (addPrReviewersTable.invokeAll helper script (before ++ after) s).1 =
        (addPrReviewersTable.invokeAll helper script before s).1 ++
          (addPrReviewersTable.invokeAll helper script after
            (addPrReviewersTable.invokeAll helper script before s).2).1 ∧
      (addPrReviewersTable.invokeAll helper script (before ++ Call.name :: after) s).1 =
        (addPrReviewersTable.invokeAll helper script before s).1 ++
          Reply.name (addPrReviewersTable.Name script) ::
            (addPrReviewersTable.invokeAll helper script after
              (addPrReviewersTable.invokeAll helper script before s).2).1 := by
  refine ⟨rfl, ?_, ?_, rfl, ?_, ?_, ?_⟩
  · unfold addPrReviewersTable.Name
    decide
  · unfold addPrReviewersTable.Name
    decide
  · rw [invokeAll_append, invokeAll_append]
    simp [addPrReviewersTable.invokeAll, addPrReviewersTable.invoke]
  · rw [invokeAll_append]
  · rw [invokeAll_append]
    simp [addPrReviewersTable.invokeAll, addPrReviewersTable.invoke]

/-- C9: for every value of `bitbucketPrReviewer20251218`, whatever its
fields hold, `TableName` returns "_tool_bitbucket_pull_request_reviewers";
and the one call `Up` makes of the helper, on any handle and against any
behaviour of the helper, hands it one descriptor whose table name is that
one. -/
theorem C9_table_name_is_fixed {H E σ : Type} (helper : Helper H E σ)
    (script : Option addPrReviewersTable) (basicRes : H) (s : σ)
    (v w : bitbucketPrReviewer20251218) :
    v.TableName = "_tool_bitbucket_pull_request_reviewers" ∧
      v.TableName = w.TableName ∧
      v.entity.tableName = "_tool_bitbucket_pull_request_reviewers" ∧
      ((addPrReviewersTable.Up script basicRes).run helper s).calls.map
          (fun c => c.2.map Entity.tableName) =
        [["_tool_bitbucket_pull_request_reviewers"]] := by
  refine ⟨rfl, rfl, rfl, rfl⟩

/-- C10: the value `Version` returns is a date-coded 64-bit number: it is
below 2^64 and below 2^63, its quotient by 10^6 is 20251218, which is a day
of the calendar in YYYYMMDD form (year 2025, month 12, day 18) and is the
number the name of the record type ends with, and its remainder modulo 10^6
is the sequence number 1. -/
theorem C10_version_is_date_coded (script : Option addPrReviewersTable) :
    addPrReviewersTable.Version script < 2 ^ 64 ∧
      addPrReviewersTable.Version script < 2 ^ 63 ∧
      addPrReviewersTable.Version script / 10 ^ 6 = 20251218 ∧
      validDate (addPrReviewersTable.Version script / 10 ^ 6) = true ∧
      addPrReviewersTable.Version script / 10 ^ 6 / 10000 = 2025 ∧
      addPrReviewersTable.Version script / 10 ^ 6 / 100 % 100 = 12 ∧
      addPrReviewersTable.Version script / 10 ^ 6 % 100 = 18 ∧
      dateSuffix bitbucketPrReviewer20251218.typeName =
        some (addPrReviewersTable.Version script / 10 ^ 6) ∧
      addPrReviewersTable.Version script % 10 ^ 6 = 1 := by
  simp only [addPrReviewersTable.Version]
  refine ⟨by norm_num, by norm_num, by norm_num, by decide, by norm_num, by norm_num,
    by norm_num, by decide, by norm_num⟩

/-- On a single descriptor the modelled helper is the migration of that one
table. -/
theorem AutoMigrateTables_single {ρ : Type} (basicRes : BasicRes) (e : Entity)
    (db : Database ρ) :
    AutoMigrateTables basicRes [e] db = autoMigrate basicRes e db := by
  rcases h : autoMigrate basicRes e db with ⟨_ | err, db'⟩ <;>
    simp [AutoMigrateTables, h]

/-- Running `Up` against the modelled helper is the migration of the one
declared table. -/
theorem up_run_model {ρ : Type} (script : Option addPrReviewersTable) (basicRes : BasicRes)
    (db : Database ρ) :
    ((addPrReviewersTable.Up script basicRes).run AutoMigrateTables db).result =
        (autoMigrate basicRes bitbucketPrReviewer20251218.zero.entity db).1 ∧
      ((addPrReviewersTable.Up script basicRes).run AutoMigrateTables db).state =
        (autoMigrate basicRes bitbucketPrReviewer20251218.zero.entity db).2 := by
  simp [addPrReviewersTable.Up, Script.run, AutoMigrateTables_single]

/-- The empty table of the declared shape does not conflict with the
declaration and reconciling it changes nothing. -/
theorem declared_table_is_settled (ρ : Type) :
    bitbucketPrReviewer20251218.zero.entity.conflicts
        (bitbucketPrReviewer20251218.zero.entity.table ρ) = false ∧
      bitbucketPrReviewer20251218.zero.entity.reconcile
        (bitbucketPrReviewer20251218.zero.entity.table ρ) =
        bitbucketPrReviewer20251218.zero.entity.table ρ := by
  constructor
  · rfl
  · rfl

/-- Setting a table to the value it has leaves the database as it is. -/
theorem Database.set_same {ρ : Type} (db : Database ρ) (name : String) (t : Table ρ)
    (h : db name = some t) : db.set name t = db := by
  funext n
  unfold Database.set
  split
  · next hn => rw [hn, h]
  · rfl

/-- Two records have the same primary-key value exactly when they share the
four identity fields. -/
theorem key_eq_iff (a b : bitbucketPrReviewer20251218) : a.key = b.key ↔ sameIdentity a b := by
  have ha : a.key = [some (.uint a.ConnectionId), some (.str a.RepoId),
      some (.int a.PullRequestId), some (.str a.ReviewerAccount)] := rfl
  have hb : b.key = [some (.uint b.ConnectionId), some (.str b.RepoId),
      some (.int b.PullRequestId), some (.str b.ReviewerAccount)] := rfl
  rw [ha, hb]
  simp [sameIdentity]

/-- A strict insert is rejected exactly when a row present shares the four
identity fields of the new row. -/
theorem strictInsert_any_iff (rows : List bitbucketPrReviewer20251218)
    (r : bitbucketPrReviewer20251218) :
    rows.any (fun x => decide (x.key = r.key)) = true ↔ ∃ x ∈ rows, sameIdentity x r := by
  simp [List.any_eq_true, key_eq_iff]

/-- The outcome of migrating the declared table, case by case: the statement
cannot be executed, the table is absent, the table is there and conflicts,
the table is there and is reconciled. -/
theorem autoMigrate_cases {ρ : Type} (basicRes : BasicRes) (e : Entity) (db : Database ρ) :
    (basicRes.canExecute = false ∧
        autoMigrate basicRes e db = (some (.cannotExecute e.tableName), db)) ∨
      (basicRes.canExecute = true ∧ db e.tableName = none ∧
        autoMigrate basicRes e db = (none, db.set e.tableName (e.table ρ))) ∨
      (∃ t, basicRes.canExecute = true ∧ db e.tableName = some t ∧ e.conflicts t = true ∧
        autoMigrate basicRes e db = (some (.conflict e.tableName), db)) ∨
      (∃ t, basicRes.canExecute = true ∧ db e.tableName = some t ∧ e.conflicts t = false ∧
        autoMigrate basicRes e db = (none, db.set e.tableName (e.reconcile t))) := by
  unfold autoMigrate
  cases hx : basicRes.canExecute with
  | false => simp
  | true =>
    cases ht : db e.tableName with
    | none => simp
    | some t =>
      cases hc : e.conflicts t with
      | false => simp
      | true => simp

/-- C2: for every database state that lacks the table
"_tool_bitbucket_pull_request_reviewers", a successful `Up` leaves a state
in which that table exists with exactly the eleven declared columns, each
with its declared type, the four-column primary key (connection id,
repository id, pull-request id, reviewer account) and no rows, and in which
the table of every other name is as before; and `Up` applied to that state succeeds and leaves it as it is. The
helper is the one modelled from the specification. -/
theorem C2_up_creates_the_table_and_is_idempotent {ρ : Type}
    (script : Option addPrReviewersTable) (basicRes : BasicRes) (db : Database ρ)
    (hlack : db "_tool_bitbucket_pull_request_reviewers" = none)
    (hok : ((addPrReviewersTable.Up script basicRes).run AutoMigrateTables db).result = none) :
    ((addPrReviewersTable.Up script basicRes).run AutoMigrateTables db).state
        "_tool_bitbucket_pull_request_reviewers" =
        some
          { columns :=
              [ { name := "connection_id", type := .unsigned 64, notNull := false },
                { name := "repo_id", type := .varchar 255, notNull := false },
                { name := "pull_request_id", type := .integer, notNull := false },
                { name := "reviewer_account", type := .varchar 255, notNull := false },
                { name := "reviewer_name", type := .varchar 255, notNull := false },
                { name := "role", type := .varchar 100, notNull := false },
                { name := "approved", type := .boolean, notNull := false },
                { name := "state", type := .varchar 100, notNull := false },
                { name := "participated_on", type := .timestamp, notNull := false },
                { name := "created_at", type := .timestamp, notNull := false },
                { name := "updated_at", type := .timestamp, notNull := false } ]
            primaryKey := ["connection_id", "repo_id", "pull_request_id", "reviewer_account"]
            rows := [] } ∧
      (∀ n, n = "_tool_bitbucket_pull_request_reviewers" ∨
        ((addPrReviewersTable.Up script basicRes).run AutoMigrateTables db).state n = db n) ∧
      ((addPrReviewersTable.Up script basicRes).run AutoMigrateTables
          ((addPrReviewersTable.Up script basicRes).run AutoMigrateTables db).state).result =
        none ∧
      ((addPrReviewersTable.Up script basicRes).run AutoMigrateTables
          ((addPrReviewersTable.Up script basicRes).run AutoMigrateTables db).state).state =
        ((addPrReviewersTable.Up script basicRes).run AutoMigrateTables db).state := by
  have hname : bitbucketPrReviewer20251218.zero.entity.tableName =
      "_tool_bitbucket_pull_request_reviewers" := rfl
  obtain ⟨hr, hs⟩ := up_run_model script basicRes db
  rw [hr] at hok
  rcases autoMigrate_cases basicRes bitbucketPrReviewer20251218.zero.entity db with
    ⟨_, h⟩ | ⟨hx, _, h⟩ | ⟨t, _, ht, _, _⟩ | ⟨t, _, ht, _, _⟩
  · rw [h] at hok
    cases hok
  · rw [h] at hs
    simp only at hs
    have hnew : (db.set bitbucketPrReviewer20251218.zero.entity.tableName
        (bitbucketPrReviewer20251218.zero.entity.table ρ))
        bitbucketPrReviewer20251218.zero.entity.tableName =
        some (bitbucketPrReviewer20251218.zero.entity.table ρ) := by
      simp [Database.set]
    obtain ⟨hr2, hs2⟩ := up_run_model script basicRes
      (db.set bitbucketPrReviewer20251218.zero.entity.tableName
        (bitbucketPrReviewer20251218.zero.entity.table ρ))
    have hsecond : autoMigrate basicRes bitbucketPrReviewer20251218.zero.entity
        (db.set bitbucketPrReviewer20251218.zero.entity.tableName
          (bitbucketPrReviewer20251218.zero.entity.table ρ)) =
        (none, db.set bitbucketPrReviewer20251218.zero.entity.tableName
          (bitbucketPrReviewer20251218.zero.entity.table ρ)) := by
      unfold autoMigrate
      rw [hx, hnew]
      simp only [if_true, (declared_table_is_settled ρ).1, (declared_table_is_settled ρ).2]
      rw [Database.set_same _ _ _ hnew]
      rfl
    rw [hs]
    refine ⟨?_, ?_, ?_, ?_⟩
    · exact hnew.trans rfl
    · intro n
      by_cases hn : n = "_tool_bitbucket_pull_request_reviewers"
      · exact Or.inl hn
      · right
        simp [Database.set, hname, hn]
    · rw [hr2, hsecond]
    · rw [hs2, hsecond]
  · rw [hname, hlack] at ht
    cases ht
  · rw [hname, hlack] at ht
    cases ht

/-- C2, at the empty database with a handle through which statements can be
executed. -/
theorem C2_up_creates_the_table_and_is_idempotent_witness :
    (fun _ => none : Database Unit) "_tool_bitbucket_pull_request_reviewers" = none ∧
      ((addPrReviewersTable.Up none { canExecute := true : BasicRes }).run AutoMigrateTables
          (fun _ => none : Database Unit)).result = none ∧
      (((addPrReviewersTable.Up none { canExecute := true : BasicRes }).run AutoMigrateTables
          (fun _ => none : Database Unit)).state
            "_tool_bitbucket_pull_request_reviewers").map (fun t => t.columns.map Column.name) =
        some ["connection_id", "repo_id", "pull_request_id", "reviewer_account",
          "reviewer_name", "role", "approved", "state", "participated_on", "created_at",
          "updated_at"] ∧
      ((addPrReviewersTable.Up none { canExecute := true : BasicRes }).run AutoMigrateTables
          ((addPrReviewersTable.Up none { canExecute := true : BasicRes }).run AutoMigrateTables
            (fun _ => none : Database Unit)).state).state =
        ((addPrReviewersTable.Up none { canExecute := true : BasicRes }).run AutoMigrateTables
          (fun _ => none : Database Unit)).state :=
  ⟨rfl, rfl,
    by
      rw [(C2_up_creates_the_table_and_is_idempotent none { canExecute := true }
        (fun _ => none : Database Unit) rfl rfl).1]
      rfl,
    (C2_up_creates_the_table_and_is_idempotent none { canExecute := true }
      (fun _ => none : Database Unit) rfl rfl).2.2.2⟩

/-- C7: for every database state and every handle, `Up` run against the
helper modelled from the specification leaves the table of every name other
than "_tool_bitbucket_pull_request_reviewers" as it was, and for every name
the rows after `Up` are the rows before, unless the table did not exist, is
the declared one and has been created, in which case it has no rows. -/
theorem C7_up_changes_no_rows {ρ : Type} (script : Option addPrReviewersTable)
    (basicRes : BasicRes) (db : Database ρ) (n : String) :
    (n = "_tool_bitbucket_pull_request_reviewers" ∨
        ((addPrReviewersTable.Up script basicRes).run AutoMigrateTables db).state n = db n) ∧
      ((((addPrReviewersTable.Up script basicRes).run AutoMigrateTables db).state n).map
            Table.rows = (db n).map Table.rows ∨
        (db n = none ∧ n = "_tool_bitbucket_pull_request_reviewers" ∧
          (((addPrReviewersTable.Up script basicRes).run AutoMigrateTables db).state n).map
            Table.rows = some [])) := by
  have hname : bitbucketPrReviewer20251218.zero.entity.tableName =
      "_tool_bitbucket_pull_request_reviewers" := rfl
  obtain ⟨_, hs⟩ := up_run_model script basicRes db
  rw [hs]
  rcases autoMigrate_cases basicRes bitbucketPrReviewer20251218.zero.entity db with
    ⟨_, h⟩ | ⟨_, hnone, h⟩ | ⟨t, _, _, _, h⟩ | ⟨t, _, ht, _, h⟩
  · rw [h]
    exact ⟨Or.inr rfl, Or.inl rfl⟩
  · rw [h]
    by_cases hn : n = "_tool_bitbucket_pull_request_reviewers"
    · refine ⟨Or.inl hn, Or.inr ⟨?_, hn, ?_⟩⟩
      · rw [hn, ← hname]
        exact hnone
      · simp [Database.set, hname, hn, Entity.table]
    · refine ⟨Or.inr ?_, Or.inl ?_⟩ <;> simp [Database.set, hname, hn]
  · rw [h]
    exact ⟨Or.inr rfl, Or.inl rfl⟩
  · rw [h]
    by_cases hn : n = "_tool_bitbucket_pull_request_reviewers"
    · refine ⟨Or.inl hn, Or.inl ?_⟩
      rw [hname] at ht
      simp [Database.set, hname, hn, ht, Entity.reconcile]
    · refine ⟨Or.inr ?_, Or.inl ?_⟩ <;> simp [Database.set, hname, hn]

/-- C8: in every table state reachable from the empty table by strict
inserts no two rows share all four of ConnectionId, RepoId, PullRequestId
and ReviewerAccount; inserting a row whose four key fields are those of a
row already present is rejected and leaves the table as it is, whatever the
other fields hold; and a row whose key is new is added. The strict insert is
the one modelled from the specification, the key is the declared one. -/
theorem C8_primary_key_is_unique (rows : List bitbucketPrReviewer20251218)
    (hreach : Reachable rows) :
    rows.Pairwise (fun a b => ¬ sameIdentity a b) ∧
      (∀ r, (∃ x ∈ rows, sameIdentity x r) → strictInsert rows r = (false, rows)) ∧
      (∀ r, (¬ ∃ x ∈ rows, sameIdentity x r) → strictInsert rows r = (true, rows ++ [r])) := by
  refine ⟨?_, ?_, ?_⟩
  · induction hreach with
    | empty => exact List.Pairwise.nil
    | insert rows r _ ih =>
      unfold strictInsert
      split
      · exact ih
      · next hnot =>
        rw [strictInsert_any_iff] at hnot
        rw [List.pairwise_append]
        refine ⟨ih, List.pairwise_singleton _ _, ?_⟩
        intro a ha b hb hsame
        rw [List.mem_singleton] at hb
        subst hb
        exact hnot ⟨a, ha, hsame⟩
  · intro r hdup
    unfold strictInsert
    rw [if_pos ((strictInsert_any_iff rows r).2 hdup)]
  · intro r hnew
    unfold strictInsert
    rw [if_neg (fun h => hnew ((strictInsert_any_iff rows r).1 h))]

/-- C8, at the scenario of the specification: after connection id 1, repo id
"myorg/myrepo", PR id 42, reviewer account "abc123" has been inserted into
the empty table, inserting the same key with another state is rejected and
the table stays as it is. -/
theorem C8_primary_key_is_unique_witness :
    Reachable [scenarioRow] ∧
      strictInsert [] scenarioRow = (true, [scenarioRow]) ∧
      strictInsert [scenarioRow] { scenarioRow with State := "changes_requested" } =
        (false, [scenarioRow]) :=
  ⟨Reachable.insert [] scenarioRow Reachable.empty, by decide,
    (C8_primary_key_is_unique [scenarioRow]
      (Reachable.insert [] scenarioRow Reachable.empty)).2.1
      { scenarioRow with State := "changes_requested" }
      ⟨scenarioRow, List.mem_singleton.2 rfl, by decide⟩⟩

end migrationscripts
